import Mathlib

/-!
  Verification of the monitor pipeline (src/monitor.py) against its
  natural-language specification.

  The embedding is shallow: Python dictionaries become structures with
  `Option` fields (a missing key reads as `none`, and a `[]`-style access
  on a missing key is an uncaught `KeyError`), Python strings become Lean
  `String`, Python integers become `Int`, and the two run-time numeric
  shapes a status code can take (`int`, or the `float` that `check_ssh`
  returns on timeout) become the sum `PyNum`.  External effects
  (`requests.get`, `socket.create_connection`, `json.loads`) are supplied
  as oracles in an `Env`; the state directory is a map from file name to
  file content; notification dispatch is recorded as a list of events.
  Uncaught exceptions are modelled by an `Option PyErr` carried in each
  step's output: `some e` means the run aborted there, exactly as an
  uncaught exception aborts `main`.
-/

/-! ## Python string primitives, re-implemented structurally -/

/-- The whitespace characters `str.strip()` removes (ASCII subset, which
covers every string this program ever strips). -/
def isPySpace (c : Char) : Bool :=
  c == ' ' || c == '\t' || c == '\n' || c == '\r' || c == '\x0B' || c == '\x0C'

/-- Python `s.strip()`: drop whitespace from both ends. -/
def pyStrip (s : String) : String :=
  ⟨((s.data.dropWhile fun c => isPySpace c).reverse.dropWhile fun c => isPySpace c).reverse⟩

/-- Whether `pat` is an initial segment of `l`. -/
def listIsPre : List Char → List Char → Bool
  | [], _ => true
  | _ :: _, [] => false
  | a :: as, b :: bs => a == b && listIsPre as bs

/-- Whether `needle` occurs contiguously in `hay` (Python `needle in hay`). -/
def listHasSub (needle : List Char) : List Char → Bool
  | [] => listIsPre needle []
  | b :: bs => listIsPre needle (b :: bs) || listHasSub needle bs

/-- Python `needle in hay` on strings. -/
def strContains (hay needle : String) : Bool :=
  listHasSub needle.data hay.data

/-- Worker for `pyReplace`; the fuel is one more than the text length, so it
never runs out on the call below. -/
def pyReplaceGo : Nat → List Char → List Char → List Char → List Char
  | _, [], _, _ => []
  | 0, s, _, _ => s
  | fuel + 1, c :: cs, pat, rep =>
    if pat ≠ [] && listIsPre pat (c :: cs) then
      rep ++ pyReplaceGo fuel (List.drop pat.length (c :: cs)) pat rep
    else
      c :: pyReplaceGo fuel cs pat rep

/-- Python `s.replace(pat, rep)` for a non-empty `pat`: leftmost,
non-overlapping occurrences. -/
def pyReplace (s pat rep : String) : String :=
  ⟨pyReplaceGo (s.data.length + 1) s.data pat.data rep.data⟩

/-- ASCII upper-casing of one character. -/
def asciiUpper (c : Char) : Char :=
  if 'a' ≤ c && c ≤ 'z' then Char.ofNat (c.toNat - 32) else c

/-- Python `s.upper()` (ASCII subset; the only inputs are HTTP verbs). -/
def pyUpper (s : String) : String :=
  ⟨s.data.map asciiUpper⟩

/-- The character of a decimal digit. -/
def digitChar48 (d : Nat) : Char := Char.ofNat (48 + d)

/-- Little fuel-driven decimal printer: pushes the digits of `n` in front of
`acc`.  Fuel `n + 1` always suffices. -/
def natStrGo : Nat → Nat → List Char → List Char
  | 0, _, acc => acc
  | fuel + 1, n, acc =>
    let acc1 := digitChar48 (n % 10) :: acc
    if n < 10 then acc1 else natStrGo fuel (n / 10) acc1

/-- Python `str` of an integer (what `str(code)` produces). -/
def intStr : Int → String
  | .ofNat m => ⟨natStrGo (m + 1) m []⟩
  | .negSucc m => ⟨'-' :: natStrGo (m + 2) (m + 1) []⟩

/-- Drop trailing `'0'` characters. -/
def stripZeros (l : List Char) : List Char :=
  (l.reverse.dropWhile fun c => c == '0').reverse

/-- Python `str(ms / 1000.0)` for the timeout value `check_ssh` returns on a
connection timeout, rendered as the exact decimal with trailing zeros
trimmed (CPython's shortest round-tripping repr agrees on these values; no
claim depends on this rendering). -/
def pyFloatStr (ms : Int) : String :=
  let q : Int := ms / 1000
  let r : Nat := (ms % 1000).toNat
  if r = 0 then ⟨(intStr q).data ++ ['.', '0']⟩
  else ⟨(intStr q).data ++ '.' ::
    stripZeros [digitChar48 (r / 100), digitChar48 (r / 10 % 10), digitChar48 (r % 10)]⟩

/-- Python truthiness of an optional string (`None` and `""` are falsy). -/
def strTruthy : Option String → Bool
  | none => false
  | some s => s ≠ ""

/-- Dictionary lookup: first binding of `k`, if any. -/
def dictGet (m : List (String × String)) (k : String) : Option String :=
  (m.find? fun p => decide (p.fst = k)).map Prod.snd

/-! ## Run-time numeric values -/

/-- The two shapes a status code takes at run time: an `int`, or the
`float` `DEFAULT_TIMEOUT_MS / 1000.0` that `check_ssh` returns on a
connection timeout. -/
inductive PyNum where
  | int (n : Int)
  | timeoutSec (ms : Int)
deriving DecidableEq

/-- Python `str(code)`. -/
def PyNum.str : PyNum → String
  | .int n => intStr n
  | .timeoutSec ms => pyFloatStr ms

/-- Python `code == 200` (a float compares equal to `200` exactly when it
is `200.0`, i.e. when the timeout was 200000 ms). -/
def PyNum.eq200 : PyNum → Bool
  | .int n => n == 200
  | .timeoutSec ms => ms == 200000

/-! ## The prober: `check_api` and `check_ssh` -/

/-- What `requests.get` handed back. -/
structure HttpResponse where
  status : Int
  text : String
deriving DecidableEq

/-- Outcome of the one `requests.get` call in `check_api`: a response, a
`requests.exceptions.Timeout`, or any other exception with its rendering. -/
inductive HttpOutcome where
  | resp (r : HttpResponse)
  | timeout
  | exn (detail : String)
deriving DecidableEq

/-- `check_api(url, checkJson, checkText, okText, errorText)` over an
already-fetched outcome; `isValidJson` is the `json.loads` success oracle.
Total by construction: every exception path of the source is one of the
returned pairs, so the function never raises. -/
def check_api (isValidJson : String → Bool) (DEFAULT_TIMEOUT_MS : Int)
    (res : HttpOutcome) (checkJson checkText : Bool)
    (okText errorText : Option String) : Int × String :=
  match res with
  | .resp r =>
    if r.status == 200 then
      if checkJson then
        if !isValidJson r.text then
          (r.status, "Invalid JSON response: " ++ intStr r.status)
        else (200, "OK")
      else if checkText then
        if strTruthy okText && !strContains r.text (okText.getD "") then
          (r.status, "Required text not found")
        else if strTruthy errorText && strContains r.text (errorText.getD "") then
          (r.status, "Error")
        else (200, "OK")
      else (200, "OK")
    else (r.status, "Unexpected status: " ++ intStr r.status)
  | .timeout => (DEFAULT_TIMEOUT_MS, "Timeout")
  | .exn d => (-1, "Error: " ++ d)

/-- Outcome of `socket.create_connection((host, 22), timeout)`. -/
inductive SshOutcome where
  | connected
  | timeout
  | connError (detail : String)
deriving DecidableEq

/-- `check_ssh(entry)` over an already-resolved connection outcome. -/
def check_ssh (DEFAULT_TIMEOUT_MS : Int) (outcome : SshOutcome) : PyNum × String :=
  match outcome with
  | .connected => (.int 200, "SSH OK")
  | .timeout => (.timeoutSec DEFAULT_TIMEOUT_MS, "Timeout")
  | .connError d => (.int 503, "Port 22 error: " ++ d)

/-! ## Exceptions, configuration entities, events -/

/-- The uncaught exceptions the pipeline can raise: a `KeyError` from a
`[]` access on a missing dictionary key, and the `NameError` from reading
the local `errorWebhookName` before any loop iteration has bound it. -/
inductive PyErr where
  | keyError (k : String)
  | nameError (n : String)
deriving DecidableEq

/-- One entry of the `webhooks` configuration list.  Only `name` is
required by the schema; the other keys are read with `[]` inside
`send_webhook_message`, so their absence is a `KeyError` there. -/
structure WebhookDefinition where
  name : String
  url : Option String := none
  requestMethod : Option String := none
  headers : Option (List (String × String)) := none
  body : List (String × String) := []
deriving DecidableEq

/-- One HTTP request actually handed to the `requests` transport by
`send_webhook_message` (`asJson` distinguishes `json=` from `data=`). -/
structure WebhookRequest where
  url : String
  method : String
  payload : List (String × String)
  asJson : Bool
  headers : List (String × String)
deriving DecidableEq

/-- The `email` configuration mapping (`none` models both a missing key
and the falsy empty mapping). -/
structure EmailConfig where
  sender_email : Option String := none
  password : Option String := none
  app_password : Option String := none
  recipient_email : Option String := none
  subject : Option String := none
deriving DecidableEq

/-- A notification actually dispatched: a webhook HTTP request, or an
email (recorded with its resolved subject). -/
inductive Event where
  | webhook (req : WebhookRequest)
  | email (service : String) (code : PyNum) (message : String) (subject : String)
deriving DecidableEq

/-- One entry of the `urls` configuration list.  `name` and `url` are
required; every other key is read with `.get`, hence optional with the
source's defaults. -/
structure UrlEntry where
  name : String
  url : String
  checkJson : Bool := false
  checkText : Bool := false
  textExpected : Option String := none
  textForbidden : Option String := none
  okWebhook : Option String := none
  errorWebhook : Option String := none
  emailConfigName : Option String := none
deriving DecidableEq

/-- One entry of the `hosts` configuration list.  The schema requires only
`host`; the loops nevertheless read `entry["name"]` and `entry["url"]`,
which is why both appear here as optional keys. -/
structure HostEntry where
  host : String
  name : Option String := none
  url : Option String := none
  okWebhook : Option String := none
  errorWebhook : Option String := none
  emailConfigName : Option String := none
deriving DecidableEq

/-- The ambient run configuration and the external-world oracles: HTTP
fetch per url, `json.loads` success per body, SSH connection outcome per
host, plus the process-wide globals `main` sets up. -/
structure Env where
  http : String → HttpOutcome
  isValidJson : String → Bool
  sshConnect : String → SshOutcome
  DEFAULT_TIMEOUT_MS : Int := 5000
  webhooks : Option (List WebhookDefinition) := some []
  email_config : Option EmailConfig := none
  CLIENT_NAME : String := "dev_env"

/-! ## The state store -/

/-- The state directory: file name to file content. -/
def FS := String → Option String

/-- Writing a file truncates and replaces its content. -/
def fsWrite (fs : FS) (k v : String) : FS :=
  fun k2 => if k2 = k then some v else fs k2

/-- The sanitizer applied to a target identity:
`name.replace(':', '_').replace('/', '_')`. -/
def sanitize (s : String) : String :=
  ⟨s.data.map fun c => if c == ':' || c == '/' then '_' else c⟩

/-- The state file name derived from a target identity. -/
def stateFileName (name : String) : String :=
  sanitize name ++ ".txt"

/-- `getCodeChanged(entry, code)` given the identity already read from
`entry["name"]`: read the previous content if the file exists (Python
strips it), unconditionally write `str(code)`, and report whether the
code changed (`True` on first observation). -/
def getCodeChanged (fs : FS) (name : String) (code : PyNum) : Bool × FS :=
  match fs (stateFileName name) with
  | some content =>
    (decide (pyStrip content ≠ PyNum.str code), fsWrite fs (stateFileName name) (PyNum.str code))
  | none =>
    (true, fsWrite fs (stateFileName name) (PyNum.str code))

/-! ## Notification channels -/

/-- `getContent(items)`: the `["Content-Type"]` access; `none` is the
uncaught `KeyError`. -/
def getContent (items : List (String × String)) : Option String :=
  dictGet items "Content-Type"

/-- `get_webhook_definition(name)`: first webhook with that name, `None`
when the list itself is `None` or nothing matches. -/
def get_webhook_definition (webhooks : Option (List WebhookDefinition))
    (name : String) : Option WebhookDefinition :=
  match webhooks with
  | none => none
  | some ws => ws.find? fun w => decide (w.name = name)

/-- The request method the `switcher` dispatch table settles on:
`method.upper()`, with `requests.post` as the default for anything else. -/
def effectiveMethod (m : String) : String :=
  let u := pyUpper m
  if u = "POST" || u = "GET" || u = "PUT" then u else "POST"

/-- `send_webhook_message(entry, code, message, client_name)`: the
requests it attempts (at most one) and the uncaught exception, if any.
The `[]` accesses on `url`, `requestMethod`, `headers` and the
`Content-Type` lookup all happen before the `try` block, so their
`KeyError`s escape; everything inside the `try` is caught, so a
non-matching `Content-Type` just attempts nothing. -/
def send_webhook_message (entry : WebhookDefinition) (code : PyNum)
    (message client_name : String) : List WebhookRequest × Option PyErr :=
  match entry.url with
  | none => ([], some (.keyError "url"))
  | some url =>
    match entry.requestMethod with
    | none => ([], some (.keyError "requestMethod"))
    | some method =>
      match entry.headers with
      | none => ([], some (.keyError "headers"))
      | some headersMap =>
        match getContent headersMap with
        | none => ([], some (.keyError "Content-Type"))
        | some contentType =>
          let payload := entry.body.map fun kv =>
            (kv.fst, pyReplace (pyReplace (pyReplace (pyReplace kv.snd
              "{code}" (PyNum.str code)) "{message}" message)
              "{client}" client_name) "{service}" entry.name)
          if contentType = "application/x-www-form-urlencoded" then
            ([⟨url, effectiveMethod method, payload, false, headersMap⟩], none)
          else if contentType = "application/json" then
            ([⟨url, effectiveMethod method, payload, true, headersMap⟩], none)
          else ([], none)

/-- `send_email_notification(service_name, code, message, client_name)`:
no event when the configuration is missing or incomplete, otherwise one
email event with the placeholder-substituted subject. -/
def send_email_notification (email_config : Option EmailConfig)
    (service_name : String) (code : PyNum) (message client_name : String) :
    List Event :=
  match email_config with
  | none => []
  | some cfg =>
    let password := if strTruthy cfg.password then cfg.password else cfg.app_password
    let subject_template := cfg.subject.getD "Service Monitoring Alert: {service}"
    if strTruthy cfg.sender_email && strTruthy password && strTruthy cfg.recipient_email then
      let subject := pyReplace (pyReplace (pyReplace (pyReplace subject_template
        "{service}" service_name) "{code}" (PyNum.str code))
        "{message}" message) "{client}" client_name
      [.email service_name code message subject]
    else []

/-! ## The orchestrator -/

/-- What one loop iteration leaves behind: the state directory, the
notifications dispatched, the (sticky) binding of the local
`errorWebhookName` — `none` while it is still unbound — and the uncaught
exception that aborted the iteration, if any. -/
structure StepOut where
  fs : FS
  events : List Event
  ewn : Option (Option String)
  err : Option PyErr

/-- The email tail shared by both loops (the lines guarded by
`if email_config:`): reading `errorWebhookName` there raises `NameError`
when no iteration has bound it yet; otherwise the email is always sent on
a change, whichever branch ran. -/
def notifyEmailTail (env : Env) (fs : FS) (ewn : Option (Option String))
    (service : String) (code : PyNum) (message : String)
    (evs : List Event) : StepOut :=
  if env.email_config.isSome then
    match ewn with
    | none => { fs := fs, events := evs, ewn := ewn, err := some (.nameError "errorWebhookName") }
    | some _ =>
      { fs := fs,
        events := evs ++ send_email_notification env.email_config service code message env.CLIENT_NAME,
        ewn := ewn, err := none }
  else
    { fs := fs, events := evs, ewn := ewn, err := none }

/-- One iteration of the `urls` loop of `main`.  Note the source's shape:
the `if webhook_def: send_webhook_message(...)` block sits inside the
`else` (non-200) branch, so in the `code == 200` branch the ok-webhook is
resolved but nothing is ever dispatched. -/
def processUrlEntry (env : Env) (fs : FS) (ewn0 : Option (Option String))
    (e : UrlEntry) : StepOut :=
  let cm := check_api env.isValidJson env.DEFAULT_TIMEOUT_MS (env.http e.url)
    e.checkJson e.checkText e.textExpected e.textForbidden
  let code := cm.fst
  let message := cm.snd
  let r := getCodeChanged fs e.name (.int code)
  let fs1 := r.snd
  if !r.fst then
    { fs := fs1, events := [], ewn := ewn0, err := none }
  else if code == 200 then
    let _webhook_def :=
      if strTruthy e.okWebhook then get_webhook_definition env.webhooks (e.okWebhook.getD "")
      else none
    notifyEmailTail env fs1 ewn0 e.name (.int code) message []
  else
    let errorWebhookName := e.errorWebhook
    let webhook_def :=
      if strTruthy errorWebhookName then get_webhook_definition env.webhooks (errorWebhookName.getD "")
      else none
    match webhook_def with
    | some wd =>
      let sw := send_webhook_message wd (.int code) message env.CLIENT_NAME
      match sw.snd with
      | some err =>
        { fs := fs1, events := sw.fst.map .webhook, ewn := some errorWebhookName, err := some err }
      | none =>
        notifyEmailTail env fs1 (some errorWebhookName) e.name (.int code) message
          (sw.fst.map .webhook)
    | none =>
      notifyEmailTail env fs1 (some errorWebhookName) e.name (.int code) message []

/-- One iteration of the `hosts` loop of `main`.  Here the dispatch block
sits outside the `if`/`else`, so an ok-webhook is dispatched; but
`getCodeChanged` reads `entry["name"]`, and the `else` of
`if webhook_def:` formats `entry['url']` — each a `KeyError` when the
host entry lacks that key. -/
def processHostEntry (env : Env) (fs : FS) (ewn0 : Option (Option String))
    (e : HostEntry) : StepOut :=
  let cm := check_ssh env.DEFAULT_TIMEOUT_MS (env.sshConnect e.host)
  let code := cm.fst
  let message := cm.snd
  match e.name with
  | none => { fs := fs, events := [], ewn := ewn0, err := some (.keyError "name") }
  | some nm =>
    let r := getCodeChanged fs nm code
    let fs1 := r.snd
    if !r.fst then
      { fs := fs1, events := [], ewn := ewn0, err := none }
    else
      let br :=
        if PyNum.eq200 code then
          (if strTruthy e.okWebhook then get_webhook_definition env.webhooks (e.okWebhook.getD "")
           else none, ewn0)
        else
          (if strTruthy e.errorWebhook then get_webhook_definition env.webhooks (e.errorWebhook.getD "")
           else none, some e.errorWebhook)
      match br.fst with
      | some wd =>
        let sw := send_webhook_message wd code message env.CLIENT_NAME
        match sw.snd with
        | some err =>
          { fs := fs1, events := sw.fst.map .webhook, ewn := br.snd, err := some err }
        | none =>
          notifyEmailTail env fs1 br.snd nm code message (sw.fst.map .webhook)
      | none =>
        match e.url with
        | none => { fs := fs1, events := [], ewn := br.snd, err := some (.keyError "url") }
        | some _ => notifyEmailTail env fs1 br.snd nm code message []

/-- Run a loop over its entries, threading the state directory, the event
log and the sticky `errorWebhookName` binding; an uncaught exception
stops the loop (and the whole run) right there. -/
def runEntries {α : Type} (step : Env → FS → Option (Option String) → α → StepOut)
    (env : Env) : List α → StepOut → StepOut
  | [], acc => acc
  | e :: rest, acc =>
    match acc.err with
    | some _ => acc
    | none =>
      let out := step env acc.fs acc.ewn e
      runEntries step env rest
        { fs := out.fs, events := acc.events ++ out.events, ewn := out.ewn, err := out.err }

/-- The body of `main` after configuration load: the `urls` loop, then the
`hosts` loop, starting with `errorWebhookName` unbound. -/
def runMain (env : Env) (fs0 : FS) (urls : List UrlEntry) (hosts : List HostEntry) : StepOut :=
  let init : StepOut := { fs := fs0, events := [], ewn := none, err := none }
  runEntries processHostEntry env hosts (runEntries processUrlEntry env urls init)

/-! ## Rendered codes contain no whitespace, so `strip` reads them back intact -/

/-- Decimal digit characters are not whitespace. -/
theorem digitChar48_not_space {d : Nat} (hd : d < 10) :
    isPySpace (digitChar48 d) = false := by
  interval_cases d <;> decide

/-- Every character the decimal printer emits is a digit or came from the
accumulator. -/
theorem natStrGo_not_space :
    ∀ (fuel n : Nat) (acc : List Char), (∀ c ∈ acc, isPySpace c = false) →
      ∀ c ∈ natStrGo fuel n acc, isPySpace c = false := by
  intro fuel
  induction fuel with
  | zero => intro n acc hacc; exact hacc
  | succ f ih =>
    intro n acc hacc c hc
    rw [natStrGo] at hc
    have hacc1 : ∀ c ∈ digitChar48 (n % 10) :: acc, isPySpace c = false := by
      intro c hc
      rcases List.mem_cons.mp hc with h | h
      · exact h ▸ digitChar48_not_space (Nat.mod_lt _ (by omega))
      · exact hacc c h
    by_cases hn : n < 10
    · simp only [hn, if_true] at hc
      exact hacc1 c hc
    · simp only [hn, if_false] at hc
      exact ih (n / 10) _ hacc1 c hc

/-- No character of `str(i)` is whitespace. -/
theorem intStr_not_space (i : Int) : ∀ c ∈ (intStr i).data, isPySpace c = false := by
  cases i with
  | ofNat m => exact natStrGo_not_space (m + 1) m [] (by simp)
  | negSucc m =>
    intro c hc
    rcases List.mem_cons.mp hc with h | h
    · subst h; decide
    · exact natStrGo_not_space (m + 2) (m + 1) [] (by simp) c h

/-- Membership survives `dropWhile` backwards. -/
theorem mem_of_mem_dropWhile {p : Char → Bool} :
    ∀ {l : List Char} {c : Char}, c ∈ l.dropWhile p → c ∈ l := by
  intro l
  induction l with
  | nil => intro c hc; simp [List.dropWhile] at hc
  | cons a as ih =>
    intro c hc
    rw [List.dropWhile_cons] at hc
    by_cases ha : p a
    · simp only [ha, if_true] at hc
      exact List.mem_cons_of_mem a (ih hc)
    · simp only [ha, if_false] at hc
      exact hc

/-- Membership survives `stripZeros` backwards. -/
theorem mem_of_mem_stripZeros {l : List Char} {c : Char} (h : c ∈ stripZeros l) : c ∈ l := by
  unfold stripZeros at h
  rw [List.mem_reverse] at h
  exact List.mem_reverse.mp (mem_of_mem_dropWhile h)

/-- No character of `str(ms / 1000.0)` is whitespace. -/
theorem pyFloatStr_not_space (ms : Int) :
    ∀ c ∈ (pyFloatStr ms).data, isPySpace c = false := by
  intro c hc
  unfold pyFloatStr at hc
  by_cases hr : (ms % 1000).toNat = 0
  · simp only [hr, if_true] at hc
    rcases List.mem_append.mp hc with h | h
    · exact intStr_not_space _ c h
    · rcases List.mem_cons.mp h with h1 | h1
      · subst h1; decide
      · rcases List.mem_cons.mp h1 with h2 | h2
        · subst h2; decide
        · simp at h2
  · simp only [hr, if_false] at hc
    rcases List.mem_append.mp hc with h | h
    · exact intStr_not_space _ c h
    · rcases List.mem_cons.mp h with h1 | h1
      · subst h1; decide
      · have h2 := mem_of_mem_stripZeros h1
        have hlt : ∀ d : Nat, d < 10 → isPySpace (digitChar48 d) = false := fun d hd =>
          digitChar48_not_space hd
        rcases List.mem_cons.mp h2 with h3 | h3
        · exact h3 ▸ hlt _ (Nat.div_lt_of_lt_mul (by omega))
        · rcases List.mem_cons.mp h3 with h4 | h4
          · exact h4 ▸ hlt _ (Nat.mod_lt _ (by omega))
          · rcases List.mem_cons.mp h4 with h5 | h5
            · exact h5 ▸ hlt _ (Nat.mod_lt _ (by omega))
            · simp at h5

/-- `dropWhile` is the identity on a list none of whose members satisfy
the predicate. -/
theorem dropWhile_eq_self_of_not {p : Char → Bool} {l : List Char}
    (h : ∀ c ∈ l, p c = false) : l.dropWhile p = l := by
  cases l with
  | nil => rfl
  | cons a as =>
    rw [List.dropWhile_cons, h a (List.mem_cons_self a as)]
    simp

/-- `strip` is the identity on a string with no whitespace characters. -/
theorem pyStrip_eq_self {s : String} (h : ∀ c ∈ s.data, isPySpace c = false) :
    pyStrip s = s := by
  unfold pyStrip
  rw [dropWhile_eq_self_of_not h,
    dropWhile_eq_self_of_not (fun c hc => h c (List.mem_reverse.mp hc)),
    List.reverse_reverse]

/-- Reading back a persisted `str(code)` through `strip` returns it
unchanged, for either run-time shape of the code. -/
theorem pyStrip_pyNumStr (c : PyNum) : pyStrip (PyNum.str c) = PyNum.str c := by
  cases c with
  | int n => exact pyStrip_eq_self (intStr_not_space n)
  | timeoutSec ms => exact pyStrip_eq_self (pyFloatStr_not_space ms)

/-! ## Helper notions and step lemmas -/

/-- The code the prober observes for a URL entry in environment `env`. -/
def urlCode (env : Env) (e : UrlEntry) : Int :=
  (check_api env.isValidJson env.DEFAULT_TIMEOUT_MS (env.http e.url)
    e.checkJson e.checkText e.textExpected e.textForbidden).fst

/-- The code the prober observes for a host entry in environment `env`. -/
def hostCode (env : Env) (e : HostEntry) : PyNum :=
  (check_ssh env.DEFAULT_TIMEOUT_MS (env.sshConnect e.host)).fst

/-- The email tail never touches the state directory. -/
theorem notifyEmailTail_fs (env : Env) (fs : FS) (ewn : Option (Option String))
    (sv : String) (c : PyNum) (m : String) (evs : List Event) :
    (notifyEmailTail env fs ewn sv c m evs).fs = fs := by
  unfold notifyEmailTail
  by_cases h : env.email_config.isSome <;> cases ewn <;> simp [h]

/-- When the stored content is exactly the rendered current code, the
detector reports no change (and still rewrites the file). -/
theorem getCodeChanged_unchanged {fs : FS} {name : String} {code : PyNum}
    (h : fs (stateFileName name) = some (PyNum.str code)) :
    getCodeChanged fs name code = (false, fsWrite fs (stateFileName name) (PyNum.str code)) := by
  unfold getCodeChanged
  rw [h]
  simp [pyStrip_pyNumStr]

/-- After the store call, the target's state file holds `str(code)`. -/
theorem getCodeChanged_write (fs : FS) (name : String) (code : PyNum) :
    (getCodeChanged fs name code).snd (stateFileName name) = some (PyNum.str code) := by
  unfold getCodeChanged
  cases fs (stateFileName name) <;> simp [fsWrite]

/-- Whatever a URL iteration does afterwards, its state directory is the
one `getCodeChanged` left: the write happens before routing and nothing
later touches it. -/
theorem processUrlEntry_fs (env : Env) (fs : FS) (ewn : Option (Option String)) (e : UrlEntry) :
    (processUrlEntry env fs ewn e).fs = (getCodeChanged fs e.name (.int (urlCode env e))).snd := by
  simp only [processUrlEntry, urlCode]
  repeat' split
  all_goals first
    | rfl
    | simp [notifyEmailTail_fs]

/-- An unchanged URL target is `continue`d before any routing: no events,
no exception. -/
theorem processUrlEntry_unchanged (env : Env) (fs : FS) (ewn : Option (Option String)) (e : UrlEntry)
    (h : fs (stateFileName e.name) = some (intStr (urlCode env e))) :
    (processUrlEntry env fs ewn e).events = [] ∧ (processUrlEntry env fs ewn e).err = none := by
  have h2 : fs (stateFileName e.name) = some (PyNum.str (.int (urlCode env e))) := h
  simp only [processUrlEntry, urlCode] at *
  rw [getCodeChanged_unchanged h2]
  simp

/-- An unchanged host target is `continue`d before any routing: no events,
no exception. -/
theorem processHostEntry_unchanged (env : Env) (fs : FS) (ewn : Option (Option String))
    (e : HostEntry) (nm : String) (hn : e.name = some nm)
    (h : fs (stateFileName nm) = some (PyNum.str (hostCode env e))) :
    (processHostEntry env fs ewn e).events = [] ∧ (processHostEntry env fs ewn e).err = none := by
  simp only [processHostEntry, hostCode] at *
  rw [hn]
  simp only []
  rw [getCodeChanged_unchanged h]
  simp

/-! ## Concrete demonstration data (used by the claim scenarios below) -/

/-- The empty state directory (a first run). -/
def fsEmpty : FS := fun _ => none

/-- A state directory holding one file `svc.txt` with code `200`. -/
def fsSvc200 : FS := fun k => if k = "svc.txt" then some "200" else none

/-- A fully well-formed webhook definition named `hooks-ok`. -/
def whOkDemo : WebhookDefinition :=
  { name := "hooks-ok", url := some "http://hook-ok", requestMethod := some "POST",
    headers := some [("Content-Type", "application/json")] }

/-- A fully well-formed webhook definition named `hooks-err`. -/
def whErrDemo : WebhookDefinition :=
  { name := "hooks-err", url := some "http://hook-err", requestMethod := some "POST",
    headers := some [("Content-Type", "application/json")] }

/-- A webhook definition whose headers mapping lacks `Content-Type`. -/
def whNoCT : WebhookDefinition :=
  { name := "wh-bad", url := some "http://bad", requestMethod := some "POST",
    headers := some [] }

/-- A webhook definition with no `headers` key at all. -/
def whNoHeaders : WebhookDefinition :=
  { name := "wh-nh", url := some "http://x", requestMethod := some "POST" }

/-- The URL target of the end-to-end scenario: ok- and error-webhooks both
configured. -/
def svcEntry : UrlEntry :=
  { name := "svc", url := "http://svc", okWebhook := some "hooks-ok",
    errorWebhook := some "hooks-err" }

/-- A URL target whose error webhook resolves to `whNoCT`. -/
def urlA : UrlEntry := { name := "a", url := "http://a", errorWebhook := some "wh-bad" }

/-- A plain URL target, listed after `urlA`. -/
def urlB : UrlEntry := { name := "b", url := "http://b" }

/-- A URL target whose error webhook resolves to `whNoHeaders`. -/
def urlNH : UrlEntry := { name := "nh", url := "http://nh", errorWebhook := some "wh-nh" }

/-- A URL target whose name carries `:` and `/`. -/
def colonEntry : UrlEntry := { name := "host:8080/api", url := "http://c" }

/-- A schema-conformant host entry: only the required `host` key. -/
def hostBare : HostEntry := { host := "host:8080/api" }

/-- A host entry that also carries `name` and `url` keys. -/
def hostNamedDemo : HostEntry := { host := "h", name := some "n", url := some "u" }

/-- Every probe observes HTTP 200 / SSH open; both demo webhooks defined. -/
def envUp200 : Env :=
  { http := fun _ => .resp ⟨200, ""⟩, isValidJson := fun _ => true,
    sshConnect := fun _ => .connected, webhooks := some [whOkDemo, whErrDemo] }

/-- Same configuration, but every HTTP probe observes 500. -/
def envUp500 : Env := { envUp200 with http := fun _ => .resp ⟨500, ""⟩ }

/-- HTTP probes observe 500 and the only webhook is `whNoCT`. -/
def envHookNoCT : Env :=
  { http := fun _ => .resp ⟨500, ""⟩, isValidJson := fun _ => true,
    sshConnect := fun _ => .connected, webhooks := some [whNoCT] }

/-- HTTP probes observe 500 and the only webhook is `whNoHeaders`. -/
def envHookNH : Env :=
  { http := fun _ => .resp ⟨500, ""⟩, isValidJson := fun _ => true,
    sshConnect := fun _ => .connected, webhooks := some [whNoHeaders] }

/-- HTTP probes observe 200 and every SSH port is open; no webhooks. -/
def envSshUp : Env :=
  { http := fun _ => .resp ⟨200, ""⟩, isValidJson := fun _ => true,
    sshConnect := fun _ => .connected }

/-! ## The claims -/

/-- Claim C1 (code bug).  The claim says a URL target transitioning to 200
with a configured, resolvable `okWebhook` gets that webhook dispatched
exactly once.  In the source the `if webhook_def: send_webhook_message(...)`
block is indented inside the `else` (non-200) branch of the `urls` loop, so
on the 200-transition the webhook is resolved but never dispatched: run 1
(first observation of 200) produces no events at all, although it records
the state.  The non-200 half of the claim does hold: on a later transition
to 500 the error webhook is dispatched once and the ok-webhook is not. -/
theorem claim_C1_url_ok_webhook_never_dispatched :
    (runMain envUp200 fsEmpty [svcEntry] []).events = [] ∧
    (runMain envUp200 fsEmpty [svcEntry] []).err = none ∧
    (runMain envUp200 fsEmpty [svcEntry] []).fs "svc.txt" = some "200" ∧
    (runMain envUp500 fsSvc200 [svcEntry] []).events =
      [.webhook ⟨"http://hook-err", "POST", [], true, [("Content-Type", "application/json")]⟩] := by
  refine ⟨by decide, by decide, by decide, by decide⟩

/-- Claim C2 (code bug).  The state write does happen before routing and
survives a routing exception (last conjunct, fully general), but nothing
isolates one target's routing from the rest of the run: when target `a`'s
error webhook lacks a `Content-Type` header, the `KeyError` escapes,
`a`'s state file is already written, and target `b` is never probed —
contradicting the claim that remaining targets are always processed. -/
theorem claim_C2_routing_exception_blocks_rest :
    (runMain envHookNoCT fsEmpty [urlA, urlB] []).err = some (.keyError "Content-Type") ∧
    (runMain envHookNoCT fsEmpty [urlA, urlB] []).fs "a.txt" = some "500" ∧
    (runMain envHookNoCT fsEmpty [urlA, urlB] []).fs "b.txt" = none ∧
    (∀ (env : Env) (fs : FS) (ewn : Option (Option String)) (e : UrlEntry),
      (processUrlEntry env fs ewn e).fs = (getCodeChanged fs e.name (.int (urlCode env e))).snd) :=
  ⟨by decide, by decide, by decide, processUrlEntry_fs⟩

/-- Claim C3 (code bug).  The sanitizer itself matches the claim
(`host:8080/api` maps to `host_8080_api.txt`), and URL targets are keyed
by `name`; but the hosts loop passes the host entry to `getCodeChanged`,
which reads `entry["name"]`: a schema-conformant host entry with only a
`host` key raises `KeyError('name')` and writes no state file, and a host
entry that does carry a `name` is keyed by that name, not by `host`. -/
theorem claim_C3_host_state_key_is_name :
    stateFileName "host:8080/api" = "host_8080_api.txt" ∧
    (runMain envUp200 fsEmpty [colonEntry] []).fs "host_8080_api.txt" = some "200" ∧
    (runMain envSshUp fsEmpty [] [hostBare]).err = some (.keyError "name") ∧
    (runMain envSshUp fsEmpty [] [hostBare]).fs "host_8080_api.txt" = none ∧
    (runMain envSshUp fsEmpty [] [hostNamedDemo]).fs "n.txt" = some "200" ∧
    (runMain envSshUp fsEmpty [] [hostNamedDemo]).fs "h.txt" = none := by
  refine ⟨by decide, by decide, by decide, by decide, by decide, by decide⟩

/-- Claim C4 (confirmed).  A target whose observed code equals, as a
string, the code persisted by the previous run is `continue`d right after
the state write: no webhook and no email is dispatched for it, and no
exception is raised — for URL targets and for host targets alike. -/
theorem claim_C4_unchanged_no_notification (env : Env) (fs : FS) (ewn : Option (Option String)) :
    (∀ e : UrlEntry, fs (stateFileName e.name) = some (intStr (urlCode env e)) →
      (processUrlEntry env fs ewn e).events = [] ∧ (processUrlEntry env fs ewn e).err = none) ∧
    (∀ (e : HostEntry) (nm : String), e.name = some nm →
      fs (stateFileName nm) = some (PyNum.str (hostCode env e)) →
      (processHostEntry env fs ewn e).events = [] ∧ (processHostEntry env fs ewn e).err = none) :=
  ⟨fun e h => processUrlEntry_unchanged env fs ewn e h,
   fun e nm hn h => processHostEntry_unchanged env fs ewn e nm hn h⟩

/-- Claim C4 witness: the concrete steady-state run (`svc.txt` already
holds `200`, the probe observes 200 again) dispatches nothing. -/
theorem claim_C4_witness :
    (processUrlEntry envUp200 fsSvc200 none svcEntry).events = [] ∧
    (processUrlEntry envUp200 fsSvc200 none svcEntry).err = none :=
  (claim_C4_unchanged_no_notification envUp200 fsSvc200 none).1 svcEntry (by decide)

/-- Claim C5 (confirmed).  With no prior state file the detector reports a
change for every code value; with a persisted previous code it reports a
change exactly when the rendered previous and current codes differ as
strings. -/
theorem claim_C5_change_detection (fs : FS) (name : String) (code : PyNum) :
    (fs (stateFileName name) = none → (getCodeChanged fs name code).fst = true) ∧
    (∀ prev : PyNum, fs (stateFileName name) = some (PyNum.str prev) →
      ((getCodeChanged fs name code).fst = true ↔ PyNum.str prev ≠ PyNum.str code)) := by
  constructor
  · intro h
    simp [getCodeChanged, h]
  · intro prev h
    unfold getCodeChanged
    rw [h]
    simp [pyStrip_pyNumStr]

/-- Claim C5 witness: first observation of `500` is a change, and a stored
`200` followed by an observed `500` is a change exactly because the
strings differ. -/
theorem claim_C5_witness :
    (getCodeChanged fsEmpty "svc" (.int 500)).fst = true ∧
    ((getCodeChanged fsSvc200 "svc" (.int 500)).fst = true ↔
      PyNum.str (.int 200) ≠ PyNum.str (.int 500)) :=
  ⟨(claim_C5_change_detection fsEmpty "svc" (.int 500)).1 rfl,
   (claim_C5_change_detection fsSvc200 "svc" (.int 500)).2 (.int 200) (by decide)⟩

/-- Claim C6 (confirmed).  After the store call the target's state file
holds exactly `str(code)` of the current observation, whatever it held
before and whether or not a change was detected; and after a whole URL
iteration — including every aborting path — the file still holds the
current code, since routing never touches the state directory. -/
theorem claim_C6_state_file_reflects_current_code (fs : FS) :
    (∀ (name : String) (code : PyNum),
      (getCodeChanged fs name code).snd (stateFileName name) = some (PyNum.str code)) ∧
    (∀ (env : Env) (ewn : Option (Option String)) (e : UrlEntry),
      (processUrlEntry env fs ewn e).fs (stateFileName e.name) = some (intStr (urlCode env e))) := by
  constructor
  · exact fun name code => getCodeChanged_write fs name code
  · intro env ewn e
    rw [processUrlEntry_fs]
    exact getCodeChanged_write fs e.name (.int (urlCode env e))

/-- Claim C7 (confirmed).  With `checkJson=true`, a 200 response whose
body fails JSON parsing yields `(200, "Invalid JSON response: 200")`, and
that message contains `"Invalid JSON response"`. -/
theorem claim_C7_invalid_json (j : String → Bool) (tm : Int) (body : String) (ct : Bool)
    (okT errT : Option String) (h : j body = false) :
    check_api j tm (.resp ⟨200, body⟩) true ct okT errT = (200, "Invalid JSON response: 200") ∧
    strContains "Invalid JSON response: 200" "Invalid JSON response" = true := by
  have hmsg : "Invalid JSON response: " ++ intStr 200 = "Invalid JSON response: 200" := by decide
  constructor
  · unfold check_api
    simp [h, hmsg]
  · decide

/-- Claim C7 witness at a concrete non-JSON body. -/
theorem claim_C7_witness :
    check_api (fun _ => false) 5000 (.resp ⟨200, "not json"⟩) true false none none =
      (200, "Invalid JSON response: 200") ∧
    strContains "Invalid JSON response: 200" "Invalid JSON response" = true :=
  claim_C7_invalid_json (fun _ => false) 5000 "not json" false none none rfl

/-- Claim C8 (confirmed).  `check_api` is total — its Lean embedding
returns one `(code, message)` pair on every input, mirroring the source
where every exception path is caught — and the failure encodings are: a
network timeout yields `(DEFAULT_TIMEOUT_MS, "Timeout")`, any other
exception yields `(-1, "Error: <detail>")`, and a non-200 status yields
`(status, "Unexpected status: <status>")`. -/
theorem claim_C8_check_api_total (j : String → Bool) (tm : Int) (cj ct : Bool)
    (okT errT : Option String) (d : String) (r : HttpResponse) :
    check_api j tm .timeout cj ct okT errT = (tm, "Timeout") ∧
    check_api j tm (.exn d) cj ct okT errT = (-1, "Error: " ++ d) ∧
    (r.status ≠ 200 → check_api j tm (.resp r) cj ct okT errT =
      (r.status, "Unexpected status: " ++ intStr r.status)) := by
  refine ⟨rfl, rfl, fun h => ?_⟩
  unfold check_api
  simp [beq_iff_eq, h]

/-- Claim C8 witness at concrete inputs, including a 503 response. -/
theorem claim_C8_witness :
    check_api (fun _ => true) 7000 .timeout false false none none = (7000, "Timeout") ∧
    check_api (fun _ => true) 7000 (.exn "boom") false false none none = (-1, "Error: boom") ∧
    check_api (fun _ => true) 7000 (.resp ⟨503, "x"⟩) false false none none =
      (503, "Unexpected status: 503") := by
  have h := claim_C8_check_api_total (fun _ => true) 7000 false false none none "boom" ⟨503, "x"⟩
  exact ⟨h.1, h.2.1, h.2.2 (by decide)⟩

/-- Claim C9 counterexample.  The claim omits `checkJson`: when both flags
are set, the source's `elif` skips the text checks entirely, so a 200
response whose body is the valid JSON text `[]` — `json.loads` accepts it,
so the oracle is `true` there — and which lacks the non-empty `okText`
returns `(200, "OK")`, not `(200, "Required text not found")` as the
claim requires. -/
theorem claim_C9_counterexample :
    check_api (fun _ => true) 5000 (.resp ⟨200, "[]"⟩) true true (some "needle") none =
      (200, "OK") ∧
    check_api (fun _ => true) 5000 (.resp ⟨200, "[]"⟩) true true (some "needle") none ≠
      (200, "Required text not found") := by
  refine ⟨by decide, by decide⟩

/-- Claim C9 as amended (corrected): with `checkJson=false` and
`checkText=true` on a 200 response, a non-empty `okText` absent from the
body yields `(200, "Required text not found")`; otherwise a non-empty
`errorText` present in the body yields `(200, "Error")`; otherwise
`(200, "OK")`. -/
theorem claim_C9_text_checks_amended (j : String → Bool) (tm : Int) (body : String)
    (okT errT : Option String) :
    ((strTruthy okT && !strContains body (okT.getD "")) = true →
      check_api j tm (.resp ⟨200, body⟩) false true okT errT = (200, "Required text not found")) ∧
    ((strTruthy okT && !strContains body (okT.getD "")) = false →
      (strTruthy errT && strContains body (errT.getD "")) = true →
      check_api j tm (.resp ⟨200, body⟩) false true okT errT = (200, "Error")) ∧
    ((strTruthy okT && !strContains body (okT.getD "")) = false →
      (strTruthy errT && strContains body (errT.getD "")) = false →
      check_api j tm (.resp ⟨200, body⟩) false true okT errT = (200, "OK")) := by
  unfold check_api
  cases hok : strTruthy okT <;> cases hcs : strContains body (okT.getD "") <;>
    cases herr : strTruthy errT <;> cases hce : strContains body (errT.getD "") <;>
    refine ⟨fun h1 => ?_, fun h1 h2 => ?_, fun h1 h2 => ?_⟩ <;> simp_all

/-- Claim C9 witness: the three amended branches at concrete bodies. -/
theorem claim_C9_witness :
    check_api (fun _ => true) 5000 (.resp ⟨200, "hay"⟩) false true (some "needle") none =
      (200, "Required text not found") ∧
    check_api (fun _ => true) 5000 (.resp ⟨200, "bad here"⟩) false true none (some "bad") =
      (200, "Error") ∧
    check_api (fun _ => true) 5000 (.resp ⟨200, "fine"⟩) false true none none = (200, "OK") :=
  ⟨(claim_C9_text_checks_amended (fun _ => true) 5000 "hay" (some "needle") none).1 (by decide),
   (claim_C9_text_checks_amended (fun _ => true) 5000 "bad here" none (some "bad")).2.1
     (by decide) (by decide),
   (claim_C9_text_checks_amended (fun _ => true) 5000 "fine" none none).2.2
     (by decide) (by decide)⟩

/-- Claim C10 (confirmed).  A webhook definition with no `headers` key, or
whose headers mapping has no `Content-Type` entry, makes
`send_webhook_message` raise an uncaught `KeyError` with no request
attempted — the lookup sits before the `try` block — and, at run level,
one such misconfigured webhook aborts the whole run (final conjunct: the
error escapes `runMain`). -/
theorem claim_C10_missing_content_type_keyerror (wd : WebhookDefinition) (code : PyNum)
    (msg client : String) :
    (wd.headers = none → ∃ k, send_webhook_message wd code msg client = ([], some (.keyError k))) ∧
    (∀ hm, wd.headers = some hm → getContent hm = none →
      ∃ k, send_webhook_message wd code msg client = ([], some (.keyError k))) ∧
    (runMain envHookNH fsEmpty [urlNH, urlB] []).err = some (.keyError "headers") ∧
    (runMain envHookNH fsEmpty [urlNH, urlB] []).fs "b.txt" = none := by
  refine ⟨?_, ?_, by decide, by decide⟩
  · intro h
    unfold send_webhook_message
    cases hu : wd.url with
    | none => exact ⟨"url", rfl⟩
    | some u =>
      cases hm : wd.requestMethod with
      | none => exact ⟨"requestMethod", rfl⟩
      | some m =>
        rw [h]
        exact ⟨"headers", rfl⟩
  · intro hm hh hct
    unfold send_webhook_message
    cases hu : wd.url with
    | none => exact ⟨"url", rfl⟩
    | some u =>
      cases hme : wd.requestMethod with
      | none => exact ⟨"requestMethod", rfl⟩
      | some m =>
        rw [hh]
        exact ⟨"Content-Type", by simp [hct]⟩

/-- Claim C10 witness: both misconfiguration shapes at concrete webhook
definitions. -/
theorem claim_C10_witness :
    (∃ k, send_webhook_message whNoHeaders (.int 500) "m" "c" = ([], some (.keyError k))) ∧
    (∃ k, send_webhook_message whNoCT (.int 500) "m" "c" = ([], some (.keyError k))) :=
  ⟨(claim_C10_missing_content_type_keyerror whNoHeaders (.int 500) "m" "c").1 rfl,
   (claim_C10_missing_content_type_keyerror whNoCT (.int 500) "m" "c").2.1 [] rfl rfl⟩
